import Mathlib

/-!
Verification of the tiling-and-georeferencing pipeline of `keras_retinanet`
(`keras_retinanet/bin/predict.py` and `keras_retinanet/utils/geo.py`).

The detector network, the raster backends (gdal / snappy) and the file system
are external collaborators; they enter the model as abstract functions
(a detector returning boxes per tile window, a per-band pixel source, a
pixel-to-geographic conversion).  Everything the orchestrator itself computes
— the sliding-window tiling, the clamping of read windows, the offsetting of
tile-local boxes into global pixel space, the score filtering and sorting of
`predict`, the record rows written at the end, and the UTM inverse projection
— is embedded directly from the source.  Machine floats are modelled as exact
rationals (for the pipeline arithmetic) or reals (for the transcendental UTM
formulas).
-/

namespace RetinaNet

/-! ### Tiling (predict_large_image, lines 136-137 and 181-184)

The scan is `for i in range(0, size_row, 1025): for j in range(0, size_column, 1025)`,
with the read window clamped by
`rows = tilesize_row if i + tilesize_row < size_row else size_row - i`
(and the same for columns).  `range(0, n, 1025)` has `⌈n / 1025⌉ = (n + 1024) / 1025`
elements. -/

/-- Tile origins along one axis: Python `range(0, size, 1025)`
(`tilesize_row = tilesize_col = 1025`). -/
def tileStarts (size : ℕ) : List ℕ :=
  List.range' 0 ((size + 1024) / 1025) 1025

/-- Clamped read-window size along one axis, from
`tilesize_row if i + tilesize_row < size_row else size_row - i` (lines 183-184). -/
def clampSize (size pos : ℕ) : ℕ :=
  if pos + 1025 < size then 1025 else size - pos

/-- `tileStarts` is Python's `range(0, size, 1025)`: the multiples of 1025
below `size`. -/
lemma mem_tileStarts (size j : ℕ) : j ∈ tileStarts size ↔ j % 1025 = 0 ∧ j < size := by
  unfold tileStarts
  rw [List.mem_range']
  constructor
  · rintro ⟨i, hi, rfl⟩
    constructor
    · omega
    · omega
  · rintro ⟨hmod, hlt⟩
    exact ⟨j / 1025, by omega, by omega⟩

lemma clampSize_eq_min (size pos : ℕ) : clampSize size pos = min 1025 (size - pos) := by
  unfold clampSize
  split <;> omega

lemma tileStarts_zero : tileStarts 0 = [] := rfl

lemma tileStarts_succ (W : ℕ) (hW : 0 < W) :
    tileStarts W = 0 :: (tileStarts (W - 1025)).map (fun x => 1025 + x) := by
  have h1 : (W + 1024) / 1025 = (W - 1025 + 1024) / 1025 + 1 := by omega
  unfold tileStarts
  rw [h1, List.range'_succ, List.map_add_range']

lemma tileStarts_sum_min (W : ℕ) :
    ((tileStarts W).map (fun j => min 1025 (W - j))).sum = W := by
  induction W using Nat.strong_induction_on with
  | _ W ih =>
    by_cases hW : W = 0
    · subst hW; rfl
    · rw [tileStarts_succ W (by omega), List.map_cons, List.map_map, List.sum_cons]
      rw [List.map_congr_left (g := fun j => min 1025 (W - 1025 - j))
            (fun a _ => by simp only [Function.comp_apply]; omega)]
      rw [ih (W - 1025) (by omega)]
      omega

/-- C1: every tile origin produced by the row-major scan gets a read window
clamped to `min 1025 (W - j)` columns and `min 1025 (H - i)` rows, and the
clamped widths along one row of tiles sum to `W` (heights along one column sum
to `H`): the tile windows partition the raster with no overlap and no gap. -/
theorem tiling_clamp_and_partition (W H : ℕ) :
    (∀ j ∈ tileStarts W, clampSize W j = min 1025 (W - j)) ∧
    (∀ i ∈ tileStarts H, clampSize H i = min 1025 (H - i)) ∧
    ((tileStarts W).map (fun j => min 1025 (W - j))).sum = W ∧
    ((tileStarts H).map (fun i => min 1025 (H - i))).sum = H :=
  ⟨fun j _ => clampSize_eq_min W j, fun i _ => clampSize_eq_min H i,
   tileStarts_sum_min W, tileStarts_sum_min H⟩

/-- Witness for C1 on a concrete 2050 × 2050 raster and the tile origin 1025. -/
theorem tiling_clamp_and_partition_witness :
    (1025 ∈ tileStarts 2050 ∧ clampSize 2050 1025 = min 1025 (2050 - 1025)) ∧
    ((tileStarts 2050).map (fun j => min 1025 (2050 - j))).sum = 2050 :=
  ⟨⟨by decide, (tiling_clamp_and_partition 2050 2050).1 1025 (by decide)⟩,
   (tiling_clamp_and_partition 2050 2050).2.2.1⟩

/-! ### Detections and the scan (predict_large_image, lines 180-207)

A detector output box; machine floats are modelled as exact rationals. -/

/-- Detection box `(x1, y1, x2, y2)` as a row of the detection arrays. -/
structure Box where
  x1 : ℚ
  y1 : ℚ
  x2 : ℚ
  y2 : ℚ
deriving DecidableEq

/-- Offsetting a tile-local box by the tile origin:
`image_boxes[..., 0] += j; ...[1] += i; ...[2] += j; ...[3] += i` (lines 201-204). -/
def offsetBox (b : Box) (j i : ℕ) : Box :=
  ⟨b.x1 + j, b.y1 + i, b.x2 + j, b.y2 + i⟩

/-- Global detections accumulated over the row-major scan (lines 181-207).
The detector is abstract: `det j i cols rows` stands for
`self.predict(readTileFunc(dataset, j, i, cols, rows))`, a function of the
tile window. -/
def scanDetections (det : ℕ → ℕ → ℕ → ℕ → List Box) (W H : ℕ) : List Box :=
  (tileStarts H).flatMap fun i =>
    (tileStarts W).flatMap fun j =>
      (det j i (clampSize W j) (clampSize H i)).map fun b => offsetBox b j i

/-- Initial row of `all_detections`: `np.array([[0, 0, size_column - 1, size_row - 1]])`
(line 180). -/
def extentBox (W H : ℕ) : Box :=
  ⟨0, 0, (W : ℚ) - 1, (H : ℚ) - 1⟩

/-- Contents of `all_detections` after the scan: the extent row followed by the
offset boxes of every tile, in accumulation (row-major scan) order. -/
def allDetections (det : ℕ → ℕ → ℕ → ℕ → List Box) (W H : ℕ) : List Box :=
  extentBox W H :: scanDetections det W H

/-- C2: every box returned by the detector for the tile at origin `(j, i)` is
accumulated as the global box `(x1 + j, y1 + i, x2 + j, y2 + i)`. -/
theorem scan_offsets_boxes (det : ℕ → ℕ → ℕ → ℕ → List Box) (W H i j : ℕ) (b : Box)
    (hi : i ∈ tileStarts H) (hj : j ∈ tileStarts W)
    (hb : b ∈ det j i (clampSize W j) (clampSize H i)) :
    offsetBox b j i = ⟨b.x1 + j, b.y1 + i, b.x2 + j, b.y2 + i⟩ ∧
    offsetBox b j i ∈ scanDetections det W H ∧
    offsetBox b j i ∈ allDetections det W H := by
  have hmem : offsetBox b j i ∈ scanDetections det W H := by
    unfold scanDetections
    exact List.mem_flatMap.mpr ⟨i, hi,
      List.mem_flatMap.mpr ⟨j, hj, List.mem_map.mpr ⟨b, hb, rfl⟩⟩⟩
  exact ⟨rfl, hmem, List.mem_cons_of_mem _ hmem⟩

/-- Witness for C2: the fixed detector box `(10, 10, 50, 50)` on the tile at
origin `(j, i) = (1025, 1025)` of a 2050 × 2050 raster is accumulated as
`(10 + 1025, 10 + 1025, 50 + 1025, 50 + 1025)`. -/
theorem scan_offsets_boxes_witness :
    offsetBox ⟨10, 10, 50, 50⟩ 1025 1025
        = ⟨10 + (1025 : ℕ), 10 + (1025 : ℕ), 50 + (1025 : ℕ), 50 + (1025 : ℕ)⟩ ∧
    offsetBox ⟨10, 10, 50, 50⟩ 1025 1025
        ∈ scanDetections (fun _ _ _ _ => [⟨10, 10, 50, 50⟩]) 2050 2050 ∧
    offsetBox ⟨10, 10, 50, 50⟩ 1025 1025
        ∈ allDetections (fun _ _ _ _ => [⟨10, 10, 50, 50⟩]) 2050 2050 :=
  scan_offsets_boxes (fun _ _ _ _ => [⟨10, 10, 50, 50⟩]) 2050 2050 1025 1025
    ⟨10, 10, 50, 50⟩ (by decide) (by decide) (by decide)

/-! ### Record rows (predict_large_image, lines 213-230)

The geographic conversions are abstract parameters: `geo` stands for the
dispatched `xyToLatLonFunc(dataset, ·, ·)` and `utm` for `utmToLatLng(48, ·, ·)`
(the source hardcodes zone 48; the real `utmToLatLng` over the reals is
embedded further below, these record-level claims do not depend on its
numerics). -/

/-- Out-of-range test `lx > 90 or lx < -90 or ly > 180 or ly < -180`
(lines 221 and 227). -/
def outOfRange (x y : ℚ) : Bool :=
  decide (90 < x) || decide (x < -90) || decide (180 < y) || decide (y < -180)

/-- Record row written for index 0 (lines 218-224): both corners of the
detection row are converted, and the UTM fallback is applied when the
converted first corner is out of range. -/
def extentRow (geo utm : ℚ → ℚ → ℚ × ℚ) (d : Box) : List ℚ :=
  let ul := geo d.x1 d.y1
  let br := geo d.x2 d.y2
  if outOfRange ul.1 ul.2 then
    [(utm ul.1 ul.2).1, (utm ul.1 ul.2).2, (utm br.1 br.2).1, (utm br.1 br.2).2]
  else
    [ul.1, ul.2, br.1, br.2]

/-- Record row written for every later index (lines 226-230): geographic
conversion of the box centroid (with UTM fallback), then the physical
dimensions `(x2 - x1) * resolution` and `(y2 - y1) * resolution`. -/
def pointRow (geo utm : ℚ → ℚ → ℚ × ℚ) (res : ℚ) (d : Box) : List ℚ :=
  let c := geo ((d.x1 + d.x2) / 2) ((d.y1 + d.y2) / 2)
  let c2 := if outOfRange c.1 c.2 then utm c.1 c.2 else c
  [c2.1, c2.2, (d.x2 - d.x1) * res, (d.y2 - d.y1) * res]

/-- Rows written to the record file by the `enumerate` loop with its
`if i == 0` dispatch (lines 217-230). -/
def writeRecords (geo utm : ℚ → ℚ → ℚ × ℚ) (res : ℚ) (dets : List Box) : List (List ℚ) :=
  dets.enum.map fun p => if p.1 = 0 then extentRow geo utm p.2 else pointRow geo utm res p.2

lemma writeRecords_tail (geo utm : ℚ → ℚ → ℚ × ℚ) (res : ℚ) (l : List Box) :
    ∀ n : ℕ, 0 < n →
      (List.enumFrom n l).map
          (fun p => if p.1 = 0 then extentRow geo utm p.2 else pointRow geo utm res p.2)
        = l.map (pointRow geo utm res) := by
  induction l with
  | nil => intro n _; rfl
  | cons d l ih =>
      intro n hn
      rw [List.enumFrom_cons]
      simp only [List.map_cons]
      rw [if_neg (by omega : ¬ (n, d).1 = 0), ih (n + 1) (by omega)]

lemma writeRecords_cons (geo utm : ℚ → ℚ → ℚ × ℚ) (res : ℚ) (d : Box) (l : List Box) :
    writeRecords geo utm res (d :: l)
      = extentRow geo utm d :: l.map (pointRow geo utm res) := by
  unfold writeRecords
  rw [List.enum_cons]
  simp only [List.map_cons]
  rw [if_pos trivial, writeRecords_tail geo utm res l 1 (by omega)]

/-- C4: the record output is exactly one extent row at index 0, derived from
the full-image pixel box `(0, 0, W - 1, H - 1)`, followed by one point row per
accumulated global detection in accumulation order; each point row holds the
geographic conversion of the box centroid `((x1+x2)/2, (y1+y2)/2)` (with UTM
fallback) and the physical dimensions `((x2-x1)*res, (y2-y1)*res)`. -/
theorem records_structure (geo utm : ℚ → ℚ → ℚ × ℚ) (res : ℚ)
    (det : ℕ → ℕ → ℕ → ℕ → List Box) (W H : ℕ) :
    (writeRecords geo utm res (allDetections det W H)).length
        = 1 + (scanDetections det W H).length ∧
    (writeRecords geo utm res (allDetections det W H))[0]?
        = some (extentRow geo utm (extentBox W H)) ∧
    (∀ n : ℕ, (writeRecords geo utm res (allDetections det W H))[n + 1]?
        = ((scanDetections det W H)[n]?).map (pointRow geo utm res)) ∧
    (∀ d : Box, pointRow geo utm res d =
        let c := geo ((d.x1 + d.x2) / 2) ((d.y1 + d.y2) / 2)
        let c2 := if outOfRange c.1 c.2 then utm c.1 c.2 else c
        [c2.1, c2.2, (d.x2 - d.x1) * res, (d.y2 - d.y1) * res]) := by
  unfold allDetections
  rw [writeRecords_cons]
  refine ⟨?_, List.getElem?_cons_zero, ?_, fun d => rfl⟩
  · simp [List.length_map, Nat.add_comm]
  · intro n
    rw [List.getElem?_cons_succ, List.getElem?_map]

/-! ### UTM fallback on the extent row (lines 219-224)

The source computes both converted corners, then tests
`if ulx > 90 or ulx < -90 or uly > 180 or uly < -180` — the condition looks at
the upper-left corner only — and, when it fires, converts both corners. -/

/-- Extent row with the UTM fallback applied to both corners (what the spec
describes as the consistent fallback outcome). -/
def extentRowConverted (geo utm : ℚ → ℚ → ℚ × ℚ) (d : Box) : List ℚ :=
  [(utm (geo d.x1 d.y1).1 (geo d.x1 d.y1).2).1, (utm (geo d.x1 d.y1).1 (geo d.x1 d.y1).2).2,
   (utm (geo d.x2 d.y2).1 (geo d.x2 d.y2).2).1, (utm (geo d.x2 d.y2).1 (geo d.x2 d.y2).2).2]

/-- Extent row with no fallback conversion applied to either corner. -/
def extentRowRaw (geo : ℚ → ℚ → ℚ × ℚ) (d : Box) : List ℚ :=
  [(geo d.x1 d.y1).1, (geo d.x1 d.y1).2, (geo d.x2 d.y2).1, (geo d.x2 d.y2).2]

/-- Conversion making the upper-left corner of the 10 × 10 extent box in range
at `(0, 0)` but the bottom-right corner out of range at `(100, 0)`. -/
def geoBrOut : ℚ → ℚ → ℚ × ℚ :=
  fun x _ => if x = 0 then (0, 0) else (100, 0)

/-- UTM fallback stand-in that visibly changes its input. -/
def utmShift : ℚ → ℚ → ℚ × ℚ :=
  fun x y => (x + 1000, y + 1000)

/-- C5 counterexample: on a 10 × 10 raster whose converted bottom-right extent
corner `(100, 0)` is out of range while the upper-left corner `(0, 0)` is in
range, the written extent row applies no fallback at all — refuting the claim
that either out-of-range corner makes both corners go through the fallback. -/
theorem extent_fallback_counterexample :
    outOfRange (geoBrOut (extentBox 10 10).x2 (extentBox 10 10).y2).1
        (geoBrOut (extentBox 10 10).x2 (extentBox 10 10).y2).2 = true ∧
    extentRow geoBrOut utmShift (extentBox 10 10) = extentRowRaw geoBrOut (extentBox 10 10) ∧
    extentRow geoBrOut utmShift (extentBox 10 10)
      ≠ extentRowConverted geoBrOut utmShift (extentBox 10 10) := by
  refine ⟨?_, ?_, ?_⟩ <;>
    norm_num [outOfRange, geoBrOut, utmShift, extentRow, extentRowRaw,
      extentRowConverted, extentBox]

/-- C5 amended: the fallback decision is taken once, from the converted
upper-left corner alone, and then applied to both corners consistently: if
`pixelToGeo(0, 0)` is out of range both corners are converted, otherwise
neither corner is converted, regardless of the bottom-right corner. -/
theorem extent_fallback_ul_only (geo utm : ℚ → ℚ → ℚ × ℚ) (d : Box) :
    (extentRow geo utm d = extentRowConverted geo utm d ∨
      extentRow geo utm d = extentRowRaw geo d) ∧
    (outOfRange (geo d.x1 d.y1).1 (geo d.x1 d.y1).2 = true →
      extentRow geo utm d = extentRowConverted geo utm d) ∧
    (outOfRange (geo d.x1 d.y1).1 (geo d.x1 d.y1).2 = false →
      extentRow geo utm d = extentRowRaw geo d) := by
  by_cases h : outOfRange (geo d.x1 d.y1).1 (geo d.x1 d.y1).2 = true
  · refine ⟨Or.inl ?_, fun _ => ?_, fun hf => by rw [h] at hf; cases hf⟩ <;>
      · unfold extentRow extentRowConverted
        rw [if_pos h]
  · refine ⟨Or.inr ?_, fun ht => absurd ht h, fun _ => ?_⟩ <;>
      · unfold extentRow extentRowRaw
        rw [if_neg h]

/-- Conversion sending every pixel out of range, to exercise the fallback
branch of the amended C5 theorem. -/
def geoAllOut : ℚ → ℚ → ℚ × ℚ :=
  fun _ _ => (100, 0)

/-- Witness for the amended C5 theorem with the upper-left corner out of
range: both corners are converted. -/
theorem extent_fallback_ul_only_witness :
    outOfRange (geoAllOut (extentBox 10 10).x1 (extentBox 10 10).y1).1
        (geoAllOut (extentBox 10 10).x1 (extentBox 10 10).y1).2 = true ∧
    extentRow geoAllOut utmShift (extentBox 10 10)
      = extentRowConverted geoAllOut utmShift (extentBox 10 10) :=
  ⟨by decide, (extent_fallback_ul_only geoAllOut utmShift (extentBox 10 10)).2.1 (by decide)⟩

/-! ### Format dispatch (predict_large_image, lines 139-160)

The extension is tested against the tif and dim families; any other extension
prints a message and returns `None` from `predict_large_image` — no exception
is raised, so `main` finishes normally and the process exits with success.
The supported branches are modelled with the raster already open and the
records as computed above. -/

/-- Extension family handled through gdal (line 142). -/
def tifTypes : List String := ["tif", "TIF", "tiff", "TIFF"]

/-- Extension family handled through snappy (line 150). -/
def dimTypes : List String := ["dim", "DIM"]

/-- Outcome of `predict_large_image` for a raster with extension `fileType`:
`Except.error` would model an uncaught exception (failure exit), `.ok none`
models the early `print(...); return` (lines 158-160), and `.ok (some rows)`
models a completed run writing `rows`. -/
def predictLargeImage (fileType : String) (W H : ℕ)
    (det : ℕ → ℕ → ℕ → ℕ → List Box) (geoTiff geoDim utm : ℚ → ℚ → ℚ × ℚ)
    (res : ℚ) : Except String (Option (List (List ℚ))) :=
  if fileType ∈ tifTypes then
    .ok (some (writeRecords geoTiff utm res (allDetections det W H)))
  else if fileType ∈ dimTypes then
    .ok (some (writeRecords geoDim utm res (allDetections det W H)))
  else
    .ok none

/-- C7 counterexample: for the unsupported extension `png` the run returns
normally with no records — `.ok none`, not an error — refuting the claimed
non-zero/failure exit signal. -/
theorem unsupported_format_counterexample :
    predictLargeImage "png" 100 100 (fun _ _ _ _ => [])
        (fun x y => (x, y)) (fun x y => (x, y)) (fun x y => (x, y)) 1
      = .ok none := by
  unfold predictLargeImage
  rw [if_neg (by decide), if_neg (by decide)]

/-- C7 amended: an unsupported extension makes the run stop immediately and
produce no output records, but it returns normally (success exit, no error
signalled) after printing a message. -/
theorem unsupported_format_returns_none (fileType : String) (W H : ℕ)
    (det : ℕ → ℕ → ℕ → ℕ → List Box) (geoTiff geoDim utm : ℚ → ℚ → ℚ × ℚ) (res : ℚ)
    (h1 : fileType ∉ tifTypes) (h2 : fileType ∉ dimTypes) :
    predictLargeImage fileType W H det geoTiff geoDim utm res = .ok none := by
  unfold predictLargeImage
  rw [if_neg h1, if_neg h2]

/-- Witness for the amended C7 theorem at the concrete extension `jpg`. -/
theorem unsupported_format_returns_none_witness :
    predictLargeImage "jpg" 50 50 (fun _ _ _ _ => [])
        (fun x y => (x, y)) (fun x y => (x, y)) (fun x y => (x, y)) 1
      = .ok none :=
  unsupported_format_returns_none "jpg" 50 50 (fun _ _ _ _ => [])
    (fun x y => (x, y)) (fun x y => (x, y)) (fun x y => (x, y)) 1
    (by decide) (by decide)

/-! ### Score filtering and sorting in predict (lines 119-133)

`indices = np.where(scores > threshold)[0]`, `scores = scores[indices]`,
`scores_sort = np.argsort(-scores)[:max_detections]`, and the three output
arrays are gathered at `indices[scores_sort]`.  Reordering the surviving
index list by descending score and truncating is exactly
`indices[argsort(-scores)[:m]]`; `np.argsort` uses an unstable quicksort, so
ties between equal scores come back in an unspecified order, which the stable
insertion sort used here refines. -/

/-- Indices with `score > threshold`, in index order
(`np.where(scores > threshold)[0]`, line 120). -/
def surviving (scores : List ℚ) (t : ℚ) : List ℕ :=
  (List.range scores.length).filter fun k => decide (t < scores.getD k 0)

/-- The gather order `indices[np.argsort(-scores)[:max_detections]]`
(lines 126-131): surviving indices sorted by descending score, truncated. -/
def scoreOrder (scores : List ℚ) (t : ℚ) (m : ℕ) : List ℕ :=
  (List.insertionSort (fun k1 k2 => scores.getD k2 0 ≤ scores.getD k1 0)
    (surviving scores t)).take m

/-- Detection selection of `RetinaNetWrapper.predict` (lines 119-133): the
three parallel output arrays gathered at the sorted surviving indices. -/
def predictSelect (boxes : List Box) (scores : List ℚ) (labels : List ℤ)
    (t : ℚ) (m : ℕ) : List Box × List ℚ × List ℤ :=
  ((scoreOrder scores t m).map fun k => boxes.getD k ⟨0, 0, 0, 0⟩,
   (scoreOrder scores t m).map fun k => scores.getD k 0,
   (scoreOrder scores t m).map fun k => labels.getD k 0)

/-- Descending-order sort of score values, the reference order of the claim. -/
def sortDesc (l : List ℚ) : List ℚ :=
  List.insertionSort (fun a b : ℚ => b ≤ a) l

lemma range_filter_map_getD {α : Type} (p : α → Bool) (d : α) (l : List α) :
    ((List.range l.length).filter fun k => p (l.getD k d)).map (fun k => l.getD k d)
      = l.filter p := by
  induction l with
  | nil => rfl
  | cons a l ih =>
      have htail :
          List.filter (fun k => p ((a :: l).getD k d)) (List.map Nat.succ (List.range l.length))
            = List.map Nat.succ ((List.range l.length).filter fun k => p (l.getD k d)) := by
        rw [List.filter_map]
        exact congrArg (List.map Nat.succ) (List.filter_congr fun k _ => by
          simp [Function.comp, List.getD_cons_succ])
      have hmap :
          List.map ((fun k => (a :: l).getD k d) ∘ Nat.succ)
              ((List.range l.length).filter fun k => p (l.getD k d))
            = List.map (fun k => l.getD k d)
              ((List.range l.length).filter fun k => p (l.getD k d)) :=
        List.map_congr_left fun k _ => by simp [Function.comp, List.getD_cons_succ]
      rw [List.length_cons, List.range_succ_eq_map, List.filter_cons, List.filter_cons]
      simp only [List.getD_cons_zero, htail]
      by_cases hpa : p a = true
      · rw [if_pos hpa, if_pos hpa, List.map_cons, List.map_map, List.getD_cons_zero,
          hmap, ih]
      · rw [if_neg hpa, if_neg hpa, List.map_map, hmap, ih]

lemma surviving_map_getD (scores : List ℚ) (t : ℚ) :
    (surviving scores t).map (fun k => scores.getD k 0)
      = scores.filter fun s => decide (t < s) :=
  range_filter_map_getD (fun s => decide (t < s)) 0 scores

lemma surviving_spec (scores : List ℚ) (t : ℚ) (k : ℕ) (hk : k ∈ surviving scores t) :
    k < scores.length ∧ t < scores.getD k 0 := by
  unfold surviving at hk
  have h := List.mem_filter.mp hk
  exact ⟨List.mem_range.mp h.1, of_decide_eq_true h.2⟩

lemma sorted_map_scoreOrder_full (scores : List ℚ) (t : ℚ) :
    ((List.insertionSort (fun k1 k2 => scores.getD k2 0 ≤ scores.getD k1 0)
        (surviving scores t)).map (fun k => scores.getD k 0))
      = sortDesc (scores.filter fun s => decide (t < s)) := by
  haveI hTr : IsTrans ℕ (fun k1 k2 => scores.getD k2 0 ≤ scores.getD k1 0) :=
    ⟨fun _ _ _ h1 h2 => le_trans h2 h1⟩
  haveI hTo : IsTotal ℕ (fun k1 k2 => scores.getD k2 0 ≤ scores.getD k1 0) :=
    ⟨fun a b => le_total (scores.getD b 0) (scores.getD a 0)⟩
  haveI hTrQ : IsTrans ℚ (fun a b => b ≤ a) := ⟨fun _ _ _ h1 h2 => le_trans h2 h1⟩
  haveI hToQ : IsTotal ℚ (fun a b => b ≤ a) := ⟨fun a b => le_total b a⟩
  haveI hAs : IsAntisymm ℚ (fun a b => b ≤ a) := ⟨fun _ _ h1 h2 => le_antisymm h2 h1⟩
  refine List.eq_of_perm_of_sorted (r := fun a b : ℚ => b ≤ a) ?_ ?_ ?_
  · have h1 :=
      (List.perm_insertionSort (fun k1 k2 => scores.getD k2 0 ≤ scores.getD k1 0)
        (surviving scores t)).map (fun k => scores.getD k 0)
    rw [surviving_map_getD] at h1
    exact h1.trans (List.perm_insertionSort _ _).symm
  · exact List.pairwise_map.mpr (List.sorted_insertionSort _ _)
  · exact List.sorted_insertionSort _ _

/-- C3: `predict` returns the detections with score strictly above the
threshold as three parallel arrays of equal length, with the scores sorted in
descending order and truncated to at most `m`, and every returned
(box, score, label) triple taken from the input triples that pass the
threshold.  In particular, for scores `[0.01, 0.6, 0.04]` and threshold
`0.05`, only the `0.6` detection survives. -/
theorem predict_select_spec (boxes : List Box) (scores : List ℚ) (labels : List ℤ)
    (t : ℚ) (m : ℕ)
    (hb : boxes.length = scores.length) (hl : labels.length = scores.length) :
    ((predictSelect boxes scores labels t m).1.length
        = (predictSelect boxes scores labels t m).2.1.length ∧
      (predictSelect boxes scores labels t m).2.2.length
        = (predictSelect boxes scores labels t m).2.1.length) ∧
    (predictSelect boxes scores labels t m).2.1.length ≤ m ∧
    (predictSelect boxes scores labels t m).2.1
      = (sortDesc (scores.filter fun s => decide (t < s))).take m ∧
    (∀ x ∈ (predictSelect boxes scores labels t m).1.zip
            ((predictSelect boxes scores labels t m).2.1.zip
              (predictSelect boxes scores labels t m).2.2),
        x ∈ (boxes.zip (scores.zip labels)).filter fun q => decide (t < q.2.1)) ∧
    predictSelect [⟨1, 1, 2, 2⟩, ⟨3, 3, 4, 4⟩, ⟨5, 5, 6, 6⟩]
        [1/100, 3/5, 1/25] [7, 8, 9] (1/20) 2000
      = ([⟨3, 3, 4, 4⟩], [3/5], [8]) := by
  refine ⟨⟨by simp [predictSelect], by simp [predictSelect]⟩, ?_, ?_, ?_, ?_⟩
  · show ((scoreOrder scores t m).map fun k => scores.getD k 0).length ≤ m
    rw [List.length_map, scoreOrder, List.length_take]
    exact min_le_left m _
  · show ((scoreOrder scores t m).map fun k => scores.getD k 0)
        = (sortDesc (scores.filter fun s => decide (t < s))).take m
    rw [scoreOrder, List.map_take, sorted_map_scoreOrder_full]
  · intro x hx
    simp only [predictSelect] at hx
    rw [List.zip_map', List.zip_map'] at hx
    obtain ⟨k, hk, rfl⟩ := List.mem_map.mp hx
    have hks : k ∈ surviving scores t :=
      (List.perm_insertionSort _ _).subset (List.take_subset m _ hk)
    obtain ⟨hklen, hkt⟩ := surviving_spec scores t k hks
    refine List.mem_filter.mpr ⟨?_, decide_eq_true hkt⟩
    refine List.mem_iff_getElem.mpr ⟨k, ?_, ?_⟩
    · rw [List.length_zip, List.length_zip]
      omega
    · rw [List.getElem_zip, List.getElem_zip,
        List.getD_eq_getElem boxes ⟨0, 0, 0, 0⟩ (by omega),
        List.getD_eq_getElem scores 0 hklen,
        List.getD_eq_getElem labels 0 (by omega)]
  · norm_num [predictSelect, scoreOrder, surviving, List.insertionSort,
      List.orderedInsert, List.filter, List.range_succ, List.getD, List.take]

/-- Witness for C3 on the scenario of the claim: scores `[0.01, 0.6, 0.04]`
with threshold `0.05` keep only the `0.6` detection. -/
theorem predict_select_spec_witness :
    predictSelect [⟨1, 1, 2, 2⟩, ⟨3, 3, 4, 4⟩, ⟨5, 5, 6, 6⟩]
        [1/100, 3/5, 1/25] [7, 8, 9] (1/20) 2000
      = ([⟨3, 3, 4, 4⟩], [3/5], [8]) ∧
    (predictSelect [⟨1, 1, 2, 2⟩, ⟨3, 3, 4, 4⟩, ⟨5, 5, 6, 6⟩]
        [1/100, 3/5, 1/25] [7, 8, 9] (1/20) 2000).2.1
      = (sortDesc (([1/100, 3/5, 1/25] : List ℚ).filter
          fun s => decide ((1/20 : ℚ) < s))).take 2000 :=
  have h := predict_select_spec [⟨1, 1, 2, 2⟩, ⟨3, 3, 4, 4⟩, ⟨5, 5, 6, 6⟩]
    [1/100, 3/5, 1/25] [7, 8, 9] (1/20) 2000 rfl rfl
  ⟨h.2.2.2.2, h.2.2.1⟩

/-! ### Tile readers (geo.py, lines 65-85)

Both readers allocate `np.zeros((int(sizeY*scale_factor), int(sizeX*scale_factor), size_band))`
and fill one band slice per iteration with `np.resize(band_data, ...)`; the
result shape is the allocated shape.  The raster backend is abstract:
`src band y x` is the pixel value of a band at a raster position. -/

/-- Two-dimensional float array: shape plus contents. -/
structure Arr2 where
  rows : ℕ
  cols : ℕ
  entry : ℕ → ℕ → ℚ

/-- Three-dimensional float array of shape `(rows, cols, bands)`. -/
structure Arr3 where
  rows : ℕ
  cols : ℕ
  bands : ℕ
  entry : ℕ → ℕ → ℕ → ℚ

/-- Python `int(...)` on a float: truncation toward zero. -/
def pyInt (q : ℚ) : ℤ :=
  if 0 ≤ q then ⌊q⌋ else ⌈q⌉

/-- The `np.zeros((r, c, b))` allocation. -/
def npZeros3 (r c b : ℕ) : Arr3 :=
  ⟨r, c, b, fun _ _ _ => 0⟩

/-- `dataset.GetRasterBand(band).ReadAsArray(xLeft, yTop, sizeX, sizeY)`:
the requested window of one band, of shape `(sizeY, sizeX)`. -/
def readAsArray (src : ℕ → ℕ → ℕ → ℚ) (band xLeft yTop sizeX sizeY : ℕ) : Arr2 :=
  ⟨sizeY, sizeX, fun y x => src band (yTop + y) (xLeft + x)⟩

/-- `np.resize(a, (r, c))`: the source is flattened row-major and repeated
cyclically into the target shape; an empty source yields zeros. -/
def npResize2 (a : Arr2) (r c : ℕ) : Arr2 :=
  ⟨r, c, fun i j =>
    if a.rows * a.cols = 0 then 0
    else a.entry (((i * c + j) % (a.rows * a.cols)) / a.cols)
                 (((i * c + j) % (a.rows * a.cols)) % a.cols)⟩

/-- `data[..., i] = b`: writes band slice `i`; the shape of `data` is kept. -/
def setBand (a : Arr3) (b : Arr2) (i : ℕ) : Arr3 :=
  ⟨a.rows, a.cols, a.bands, fun r c k => if k = i then b.entry r c else a.entry r c k⟩

/-- `readTiffTile` (geo.py lines 65-72): gdal bands are indexed from 1. -/
def readTiffTile (src : ℕ → ℕ → ℕ → ℚ) (xLeft yTop sizeX sizeY size_band : ℕ)
    (scale_factor : ℚ) : Arr3 :=
  let r := (pyInt ((sizeY : ℚ) * scale_factor)).toNat
  let c := (pyInt ((sizeX : ℚ) * scale_factor)).toNat
  (List.range size_band).foldl
    (fun data i =>
      setBand data (npResize2 (readAsArray src (i + 1) xLeft yTop sizeX sizeY) r c) i)
    (npZeros3 r c size_band)

/-- `band.readPixels(xLeft, yTop, sizeX, sizeY, buffer)` into a flat buffer of
length `sizeX * sizeY`, row-major over the requested window. -/
def readPixelsFlat (src : ℕ → ℕ → ℕ → ℚ) (band xLeft yTop sizeX : ℕ) : ℕ → ℚ :=
  fun k => src band (yTop + k / sizeX) (xLeft + k % sizeX)

/-- `band_data.reshape(rows, cols)` of a flat buffer. -/
def reshape2 (f : ℕ → ℚ) (rows cols : ℕ) : Arr2 :=
  ⟨rows, cols, fun y x => f (y * cols + x)⟩

/-- `readDimTile` (geo.py lines 74-85): snappy bands are read by name, here
indexed from 0 in band-name order. -/
def readDimTile (src : ℕ → ℕ → ℕ → ℚ) (xLeft yTop sizeX sizeY size_band : ℕ)
    (scale_factor : ℚ) : Arr3 :=
  let r := (pyInt ((sizeY : ℚ) * scale_factor)).toNat
  let c := (pyInt ((sizeX : ℚ) * scale_factor)).toNat
  (List.range size_band).foldl
    (fun data i =>
      setBand data
        (npResize2 (reshape2 (readPixelsFlat src i xLeft yTop sizeX) sizeY sizeX) r c) i)
    (npZeros3 r c size_band)

lemma foldl_setBand_shape (g : Arr3 → ℕ → Arr2) (l : List ℕ) :
    ∀ a : Arr3,
      ((l.foldl (fun data i => setBand data (g data i) i) a)).rows = a.rows ∧
      ((l.foldl (fun data i => setBand data (g data i) i) a)).cols = a.cols ∧
      ((l.foldl (fun data i => setBand data (g data i) i) a)).bands = a.bands := by
  induction l with
  | nil => exact fun a => ⟨rfl, rfl, rfl⟩
  | cons x xs ih =>
      intro a
      rw [List.foldl_cons]
      exact ih (setBand a (g a x) x)

/-- C6 amended: both tile readers return an array of shape
`(int(sizeY * scale), int(sizeX * scale), size_band)` — Python `int`
truncation toward zero, not rounding — and for scale factor 1 the shape is
exactly `(sizeY, sizeX, size_band)`. -/
theorem readtile_shape (src : ℕ → ℕ → ℕ → ℚ) (xLeft yTop sizeX sizeY size_band : ℕ)
    (scale : ℚ) :
    ((readTiffTile src xLeft yTop sizeX sizeY size_band scale).rows
        = (pyInt ((sizeY : ℚ) * scale)).toNat ∧
      (readTiffTile src xLeft yTop sizeX sizeY size_band scale).cols
        = (pyInt ((sizeX : ℚ) * scale)).toNat ∧
      (readTiffTile src xLeft yTop sizeX sizeY size_band scale).bands = size_band) ∧
    ((readDimTile src xLeft yTop sizeX sizeY size_band scale).rows
        = (pyInt ((sizeY : ℚ) * scale)).toNat ∧
      (readDimTile src xLeft yTop sizeX sizeY size_band scale).cols
        = (pyInt ((sizeX : ℚ) * scale)).toNat ∧
      (readDimTile src xLeft yTop sizeX sizeY size_band scale).bands = size_band) ∧
    ((readTiffTile src xLeft yTop sizeX sizeY size_band 1).rows = sizeY ∧
      (readTiffTile src xLeft yTop sizeX sizeY size_band 1).cols = sizeX ∧
      (readDimTile src xLeft yTop sizeX sizeY size_band 1).rows = sizeY ∧
      (readDimTile src xLeft yTop sizeX sizeY size_band 1).cols = sizeX) := by
  have hone : ∀ n : ℕ, (pyInt ((n : ℚ) * 1)).toNat = n := by
    intro n
    simp [pyInt]
  have htiff := foldl_setBand_shape
    (fun data i => npResize2 (readAsArray src (i + 1) xLeft yTop sizeX sizeY)
      (pyInt ((sizeY : ℚ) * scale)).toNat (pyInt ((sizeX : ℚ) * scale)).toNat)
    (List.range size_band)
    (npZeros3 (pyInt ((sizeY : ℚ) * scale)).toNat (pyInt ((sizeX : ℚ) * scale)).toNat size_band)
  have hdim := foldl_setBand_shape
    (fun data i => npResize2 (reshape2 (readPixelsFlat src i xLeft yTop sizeX) sizeY sizeX)
      (pyInt ((sizeY : ℚ) * scale)).toNat (pyInt ((sizeX : ℚ) * scale)).toNat)
    (List.range size_band)
    (npZeros3 (pyInt ((sizeY : ℚ) * scale)).toNat (pyInt ((sizeX : ℚ) * scale)).toNat size_band)
  have htiff1 := foldl_setBand_shape
    (fun data i => npResize2 (readAsArray src (i + 1) xLeft yTop sizeX sizeY)
      (pyInt ((sizeY : ℚ) * 1)).toNat (pyInt ((sizeX : ℚ) * 1)).toNat)
    (List.range size_band)
    (npZeros3 (pyInt ((sizeY : ℚ) * 1)).toNat (pyInt ((sizeX : ℚ) * 1)).toNat size_band)
  have hdim1 := foldl_setBand_shape
    (fun data i => npResize2 (reshape2 (readPixelsFlat src i xLeft yTop sizeX) sizeY sizeX)
      (pyInt ((sizeY : ℚ) * 1)).toNat (pyInt ((sizeX : ℚ) * 1)).toNat)
    (List.range size_band)
    (npZeros3 (pyInt ((sizeY : ℚ) * 1)).toNat (pyInt ((sizeX : ℚ) * 1)).toNat size_band)
  refine ⟨⟨htiff.1, htiff.2.1, htiff.2.2⟩, ⟨hdim.1, hdim.2.1, hdim.2.2⟩,
    ?_, ?_, ?_, ?_⟩
  · exact htiff1.1.trans (hone sizeY)
  · exact htiff1.2.1.trans (hone sizeX)
  · exact hdim1.1.trans (hone sizeY)
  · exact hdim1.2.1.trans (hone sizeX)

/-- Raster source that is zero everywhere, for concrete evaluations. -/
def zeroSrc : ℕ → ℕ → ℕ → ℚ := fun _ _ _ => 0

/-- C6 counterexample: a 4 × 3 window read with scale factor 0.5 produces 1
row (`int(1.5) = 1`), not the 2 rows (`round(1.5) = 2`) the claim requires. -/
theorem readtile_round_counterexample :
    (readTiffTile zeroSrc 0 0 4 3 1 (1/2)).rows = 1 ∧
    (round ((3 : ℚ) * (1/2))).toNat = 2 ∧
    (readTiffTile zeroSrc 0 0 4 3 1 (1/2)).rows ≠ (round ((3 : ℚ) * (1/2))).toNat := by
  have h1 : (readTiffTile zeroSrc 0 0 4 3 1 (1/2)).rows = 1 := by
    have h := (foldl_setBand_shape
      (fun data i => npResize2 (readAsArray zeroSrc (i + 1) 0 0 4 3)
        (pyInt ((3 : ℚ) * (1/2))).toNat (pyInt ((4 : ℚ) * (1/2))).toNat)
      (List.range 1)
      (npZeros3 (pyInt ((3 : ℚ) * (1/2))).toNat (pyInt ((4 : ℚ) * (1/2))).toNat 1)).1
    rw [readTiffTile]
    push_cast
    rw [h]
    norm_num [npZeros3, pyInt]
  have h2 : (round ((3 : ℚ) * (1/2))).toNat = 2 := by
    rw [round_eq]
    norm_num
    rfl
  exact ⟨h1, h2, by rw [h1, h2]; omega⟩

/-! ### Pixel-to-geographic conversions (geo.py, lines 57-63 and 87-89) -/

/-- A geodetic position as returned by the snappy scene geocoding
(`GeoPos` with `getLat()` and `getLon()`). -/
structure GeoPos where
  lat : ℚ
  lon : ℚ
deriving DecidableEq

/-- `xyToLatLonTiff` (geo.py lines 57-63): affine conversion
`(ulx + x * xres, uly + y * yres)`; the skew terms of the geotransform are
not used. -/
def xyToLatLonTiff (ulx xres uly yres x y : ℚ) : ℚ × ℚ :=
  (ulx + x * xres, uly + y * yres)

/-- `xyToLatLonDim` (geo.py lines 87-89): scene-geocoding lookup
`dataset.getSceneGeoCoding().getGeoPos(PixelPos(x, y), None)`, returning
`(pos.getLon(), pos.getLat())`. -/
def xyToLatLonDim (geoCoding : ℚ → ℚ → GeoPos) (x y : ℚ) : ℚ × ℚ :=
  ((geoCoding x y).lon, (geoCoding x y).lat)

/-- Scene geocoding answering latitude 10, longitude 20 everywhere. -/
def gcConst : ℚ → ℚ → GeoPos := fun _ _ => ⟨10, 20⟩

/-- C8 counterexample: for a geocoding that answers latitude 10 and longitude
20, the returned pair is `(20, 10)` — longitude first — not the claimed
`(lat, lon)` reorder. -/
theorem dim_latlon_order_counterexample :
    xyToLatLonDim gcConst 0 0 = (20, 10) ∧
    xyToLatLonDim gcConst 0 0 ≠ ((gcConst 0 0).lat, (gcConst 0 0).lon) :=
  ⟨rfl, by decide⟩

/-- C8 amended: the scene-geocoding conversion passes the native lookup
through with longitude first: the first returned component is the longitude
and the second the latitude, with no reorder to `(lat, lon)`. -/
theorem dim_latlon_order (geoCoding : ℚ → ℚ → GeoPos) (x y : ℚ) :
    (xyToLatLonDim geoCoding x y).1 = (geoCoding x y).lon ∧
    (xyToLatLonDim geoCoding x y).2 = (geoCoding x y).lat :=
  ⟨rfl, rfl⟩

/-! ### UTM inverse projection (geo.py, lines 6-55)

Modelled over the reals; `math.pow` is real exponentiation, `math.sin` etc.
are the real functions.  The Python idiom
`((zone > 0) and (6 * zone - 183.0) or 3.0)` selects `6 * zone - 183.0`
when `zone > 0` and that value is nonzero (float truthiness), else `3.0`. -/

/-- `utmToLatLng` (geo.py lines 6-55), with ellipsoid constants
`a = 6378137` and `e = 0.081819191`. -/
noncomputable def utmToLatLng (zone : ℤ) (easting northing : ℝ)
    (northernHemisphere : Bool) : ℝ × ℝ :=
  let northing' := if northernHemisphere then northing else 10000000 - northing
  let a : ℝ := 6378137
  let e : ℝ := 0.081819191
  let e1sq : ℝ := 0.006739497
  let k0 : ℝ := 0.9996
  let arc := northing' / k0
  let mu := arc / (a * (1 - e ^ (2 : ℝ) / 4 - 3 * e ^ (4 : ℝ) / 64 - 5 * e ^ (6 : ℝ) / 256))
  let ei := (1 - (1 - e * e) ^ ((1 : ℝ) / 2)) / (1 + (1 - e * e) ^ ((1 : ℝ) / 2))
  let ca := 3 * ei / 2 - 27 * ei ^ (3 : ℝ) / 32
  let cb := 21 * ei ^ (2 : ℝ) / 16 - 55 * ei ^ (4 : ℝ) / 32
  let cc := 151 * ei ^ (3 : ℝ) / 96
  let cd := 1097 * ei ^ (4 : ℝ) / 512
  let phi1 := mu + ca * Real.sin (2 * mu) + cb * Real.sin (4 * mu)
    + cc * Real.sin (6 * mu) + cd * Real.sin (8 * mu)
  let n0 := a / (1 - (e * Real.sin phi1) ^ (2 : ℝ)) ^ ((1 : ℝ) / 2)
  let r0 := a * (1 - e * e) / (1 - (e * Real.sin phi1) ^ (2 : ℝ)) ^ ((3 : ℝ) / 2)
  let fact1 := n0 * Real.tan phi1 / r0
  let a1 := 500000 - easting
  let dd0 := a1 / (n0 * k0)
  let fact2 := dd0 * dd0 / 2
  let t0 := Real.tan phi1 ^ (2 : ℝ)
  let Q0 := e1sq * Real.cos phi1 ^ (2 : ℝ)
  let fact3 := (5 + 3 * t0 + 10 * Q0 - 4 * Q0 * Q0 - 9 * e1sq) * dd0 ^ (4 : ℝ) / 24
  let fact4 := (61 + 90 * t0 + 298 * Q0 + 45 * t0 * t0 - 252 * e1sq - 3 * Q0 * Q0)
    * dd0 ^ (6 : ℝ) / 720
  let lof1 := a1 / (n0 * k0)
  let lof2 := (1 + 2 * t0 + Q0) * dd0 ^ (3 : ℝ) / 6
  let lof3 := (5 - 2 * Q0 + 28 * t0 - 3 * Q0 ^ (2 : ℝ) + 8 * e1sq + 24 * t0 ^ (2 : ℝ))
    * dd0 ^ (5 : ℝ) / 120
  let a2 := (lof1 - lof2 + lof3) / Real.cos phi1
  let a3 := a2 * 180 / Real.pi
  let latitude := 180 * (phi1 - fact1 * (fact2 + fact3 + fact4)) / Real.pi
  let latitude' := if northernHemisphere then latitude else -latitude
  let longitude := (if 0 < zone then
      (if (6 * zone - 183 : ℤ) ≠ 0 then ((6 * zone - 183 : ℤ) : ℝ) else 3)
    else 3) - a3
  (latitude', longitude)

/-- The Krüger-series longitude correction: the `_a3` term of `utmToLatLng`
as a function of the easting and the (hemisphere-adjusted) northing, with the
same ellipsoid constants `a = 6378137`, `e = 0.081819191`. -/
noncomputable def utmCorrection (easting northing : ℝ) : ℝ :=
  let a : ℝ := 6378137
  let e : ℝ := 0.081819191
  let e1sq : ℝ := 0.006739497
  let k0 : ℝ := 0.9996
  let arc := northing / k0
  let mu := arc / (a * (1 - e ^ (2 : ℝ) / 4 - 3 * e ^ (4 : ℝ) / 64 - 5 * e ^ (6 : ℝ) / 256))
  let ei := (1 - (1 - e * e) ^ ((1 : ℝ) / 2)) / (1 + (1 - e * e) ^ ((1 : ℝ) / 2))
  let ca := 3 * ei / 2 - 27 * ei ^ (3 : ℝ) / 32
  let cb := 21 * ei ^ (2 : ℝ) / 16 - 55 * ei ^ (4 : ℝ) / 32
  let cc := 151 * ei ^ (3 : ℝ) / 96
  let cd := 1097 * ei ^ (4 : ℝ) / 512
  let phi1 := mu + ca * Real.sin (2 * mu) + cb * Real.sin (4 * mu)
    + cc * Real.sin (6 * mu) + cd * Real.sin (8 * mu)
  let n0 := a / (1 - (e * Real.sin phi1) ^ (2 : ℝ)) ^ ((1 : ℝ) / 2)
  let a1 := 500000 - easting
  let dd0 := a1 / (n0 * k0)
  let t0 := Real.tan phi1 ^ (2 : ℝ)
  let Q0 := e1sq * Real.cos phi1 ^ (2 : ℝ)
  let lof1 := a1 / (n0 * k0)
  let lof2 := (1 + 2 * t0 + Q0) * dd0 ^ (3 : ℝ) / 6
  let lof3 := (5 - 2 * Q0 + 28 * t0 - 3 * Q0 ^ (2 : ℝ) + 8 * e1sq + 24 * t0 ^ (2 : ℝ))
    * dd0 ^ (5 : ℝ) / 120
  let a2 := (lof1 - lof2 + lof3) / Real.cos phi1
  a2 * 180 / Real.pi

/-- C9: the longitude returned by `utmToLatLng` is
`(6 * zone - 183) - correction` for positive zones and `3 - correction`
otherwise, where the correction is the Krüger-series `_a3` term computed from
the easting and the hemisphere-adjusted northing.  (For an integer zone,
`6 * zone - 183` is never zero, so the Python float-truthiness `and`/`or`
chain always selects the zone formula when `zone > 0`.) -/
theorem utm_longitude_formula (zone : ℤ) (easting northing : ℝ) (h : Bool) :
    (utmToLatLng zone easting northing h).2
      = (if 0 < zone then ((6 * zone - 183 : ℤ) : ℝ) else 3)
        - utmCorrection easting (if h then northing else 10000000 - northing) := by
  have h6 : 0 < zone → (6 * zone - 183 : ℤ) ≠ 0 := fun hz => by omega
  cases h with
  | false =>
      by_cases hz : 0 < zone
      · simp only [utmToLatLng, utmCorrection, Bool.false_eq_true, if_false,
          if_pos hz, if_pos (h6 hz)]
      · simp only [utmToLatLng, utmCorrection, Bool.false_eq_true, if_false,
          if_neg hz]
  | true =>
      by_cases hz : 0 < zone
      · simp only [utmToLatLng, utmCorrection, if_true, if_pos hz, if_pos (h6 hz)]
      · simp only [utmToLatLng, utmCorrection, if_true, if_neg hz]

/-- C10: the southern-hemisphere result is the northern-hemisphere
computation on the complemented northing `10000000 - northing`, with the
latitude negated and the longitude unchanged. -/
theorem utm_southern_hemisphere (zone : ℤ) (easting northing : ℝ) :
    utmToLatLng zone easting northing false
      = (-(utmToLatLng zone easting (10000000 - northing) true).1,
         (utmToLatLng zone easting (10000000 - northing) true).2) := by
  simp only [utmToLatLng, Bool.false_eq_true, if_false, if_true]

end RetinaNet
